import Mathlib

/-!
Shallow embedding of the two scripts of the SQL-Agent repository,
`00_simple_llm.py` and `01_simple_agent.py`.

Both scripts end in the same interactive delegation loop
(`while True:` in `main`): read a line, strip it, terminate on an exit
keyword, re-prompt on an empty line, otherwise call `agent.invoke` once and
print the result; `KeyboardInterrupt` is caught and terminates the loop,
every other exception is caught, printed, and the loop continues.

This file embeds: the Python string primitives used by the loop
(`str.strip`, `str.lower`), the per-iteration decision, a step function for
each script's loop body including its exception handlers, a driver that runs
the loop over a list of input events, the `DummyTool` placeholder of the
first script, the tool list passed to `initialize_agent`, and the startup
behaviour of both scripts when `GOOGLE_API_KEY` is missing.
-/

/-- The whitespace characters removed by Python's `str.strip()`
(ASCII range: space, tab, newline, carriage return, vertical tab, form feed). -/
def pyIsSpace (c : Char) : Bool :=
  c = ' ' || c = '\t' || c = '\n' || c = '\r' || c = '\x0b' || c = '\x0c'

/-- Python `str.strip()` on the underlying character list: drop leading
whitespace, then drop trailing whitespace. -/
def stripList (l : List Char) : List Char :=
  List.rdropWhile pyIsSpace (l.dropWhile pyIsSpace)

/-- Python `str.strip()`, as used in `user_input = input(...).strip()`
(line 152 of `00_simple_llm.py`, line 82 of `01_simple_agent.py`). -/
def pyStrip (s : String) : String := ⟨stripList s.data⟩

/-- Python `str.lower()` (ASCII range), as used in `user_input.lower()`
(line 155 of `00_simple_llm.py`, line 85 of `01_simple_agent.py`). -/
def pyLower (s : String) : String := ⟨s.data.map Char.toLower⟩

/-- The exit keyword list `['quit', 'exit', 'q']` shared by both scripts. -/
def exitCommands : List String := ["quit", "exit", "q"]

/-- The three possible per-iteration decisions of the loop body on a line of
input: break out of the loop, skip (re-prompt), or dispatch the stripped
input to the agent. -/
inductive Decision where
  | terminate
  | reprompt
  | dispatch (request : String)
  deriving DecidableEq

/-- The decision taken by the loop body of both scripts on the raw line
returned by `input()`: the line is stripped, then
`if user_input.lower() in ['quit', 'exit', 'q']: break`, then
`if not user_input: continue`, otherwise the stripped input is dispatched. -/
def loopDecision (raw : String) : Decision :=
  let user_input := pyStrip raw
  if exitCommands.contains (pyLower user_input) then Decision.terminate
  else if user_input = "" then Decision.reprompt
  else Decision.dispatch user_input

/-- The observable behaviour of one `agent.invoke({"input": user_input})`
call: it returns a result dict whose `output` field is printed, it raises an
exception (any `Exception`, e.g. a transport failure) which the loop catches,
or a `KeyboardInterrupt` arrives during the blocking call. -/
inductive BackendBehavior where
  | success (out : String)
  | raiseExc (msg : String)
  | interruptDuringInvoke
  deriving DecidableEq

/-- What happens at the `input()` call at the top of one loop iteration:
a line is delivered, a `KeyboardInterrupt` arrives while blocked in
`input()`, or the input stream ends (Python's `input()` raises `EOFError`,
which is a subclass of `Exception`, not of `KeyboardInterrupt`). -/
inductive InputEvent where
  | line (raw : String)
  | interruptAtInput
  | eofAtInput
  deriving DecidableEq

/-- The loop-level state after one iteration: back at the top of the
`while True:` loop awaiting input (idle), or out of the loop (terminated). -/
inductive LoopState where
  | idle
  | terminated
  deriving DecidableEq

/-- Observable outcome of one iteration of the loop body: the state the loop
is left in, the list of inputs passed to `agent.invoke` during the iteration
(in order), and the lines printed. -/
structure IterOutcome where
  next : LoopState
  calls : List String
  printed : List String
  deriving DecidableEq

/-- The dispatch part of the loop body of `00_simple_llm.py` (lines 164-167
and the two `except` clauses): `agent.invoke` is called once on the stripped
input; on a result, the `output` field is printed and the loop continues; on
an exception, the error message is printed and the loop continues; on a
`KeyboardInterrupt` during the call, a farewell is printed and the loop
breaks. -/
def invokeOutcome00 (u : String) : BackendBehavior → IterOutcome
  | BackendBehavior.success out =>
      ⟨LoopState.idle, [u],
       ["\n🔄 Processing your request...", "\n🤖 Agent Response: " ++ out]⟩
  | BackendBehavior.raiseExc m =>
      ⟨LoopState.idle, [u],
       ["\n🔄 Processing your request...", "\n❌ Error: " ++ m ++ "\n"]⟩
  | BackendBehavior.interruptDuringInvoke =>
      ⟨LoopState.terminated, [u],
       ["\n🔄 Processing your request...", "\n👋 Goodbye!"]⟩

/-- Same as `invokeOutcome00` for `01_simple_agent.py` (lines 94-97), which
prints `📊 Result:` instead of `🤖 Agent Response:`. -/
def invokeOutcome01 (u : String) : BackendBehavior → IterOutcome
  | BackendBehavior.success out =>
      ⟨LoopState.idle, [u],
       ["\n🔄 Processing your request...", "\n📊 Result: " ++ out ++ "\n"]⟩
  | BackendBehavior.raiseExc m =>
      ⟨LoopState.idle, [u],
       ["\n🔄 Processing your request...", "\n❌ Error: " ++ m ++ "\n"]⟩
  | BackendBehavior.interruptDuringInvoke =>
      ⟨LoopState.terminated, [u],
       ["\n🔄 Processing your request...", "\n👋 Goodbye!"]⟩

/-- The loop body of `00_simple_llm.py` after the input line has been read,
branching on the decision: `break` prints the farewell, `continue` prints
nothing, dispatch calls the agent. -/
def stepOfDecision00 (backend : String → BackendBehavior) : Decision → IterOutcome
  | Decision.terminate => ⟨LoopState.terminated, [], ["👋 Goodbye!"]⟩
  | Decision.reprompt => ⟨LoopState.idle, [], []⟩
  | Decision.dispatch u => invokeOutcome00 u (backend u)

/-- Same as `stepOfDecision00` for `01_simple_agent.py`. -/
def stepOfDecision01 (backend : String → BackendBehavior) : Decision → IterOutcome
  | Decision.terminate => ⟨LoopState.terminated, [], ["👋 Goodbye!"]⟩
  | Decision.reprompt => ⟨LoopState.idle, [], []⟩
  | Decision.dispatch u => invokeOutcome01 u (backend u)

/-- One full iteration of the `while True:` loop of `00_simple_llm.py`
(lines 149-172), including its exception handlers: a `KeyboardInterrupt`
while blocked in `input()` prints the farewell and breaks; an `EOFError`
from `input()` at end of stream is caught by the generic
`except Exception as e:` clause, which prints the error and lets the loop
continue; a delivered line goes through the decision logic. -/
def loopStep00 (backend : String → BackendBehavior) : InputEvent → IterOutcome
  | InputEvent.line raw => stepOfDecision00 backend (loopDecision raw)
  | InputEvent.interruptAtInput =>
      ⟨LoopState.terminated, [], ["\n👋 Goodbye!"]⟩
  | InputEvent.eofAtInput =>
      ⟨LoopState.idle, [], ["\n❌ Error: EOF when reading a line\n"]⟩

/-- One full iteration of the `while True:` loop of `01_simple_agent.py`
(lines 79-102); identical handler structure to `loopStep00`. -/
def loopStep01 (backend : String → BackendBehavior) : InputEvent → IterOutcome
  | InputEvent.line raw => stepOfDecision01 backend (loopDecision raw)
  | InputEvent.interruptAtInput =>
      ⟨LoopState.terminated, [], ["\n👋 Goodbye!"]⟩
  | InputEvent.eofAtInput =>
      ⟨LoopState.idle, [], ["\n❌ Error: EOF when reading a line\n"]⟩

/-- Run the `while True:` loop over a list of input events: iterate the step
function, accumulating the agent calls and the printed lines, stopping as
soon as an iteration breaks out of the loop. -/
def runLoop (step : InputEvent → IterOutcome) :
    List InputEvent → LoopState × List String × List String
  | [] => (LoopState.idle, [], [])
  | ev :: rest =>
      let o := step ev
      match o.next with
      | LoopState.terminated => (LoopState.terminated, o.calls, o.printed)
      | LoopState.idle =>
          let r := runLoop step rest
          (r.1, o.calls ++ r.2.1, o.printed ++ r.2.2)

/-- The declared interface of a LangChain tool as used by the scripts:
a name and a human-readable description. -/
structure ToolSpec where
  name : String
  description : String
  deriving DecidableEq

/-- The class attributes of `DummyTool` in `00_simple_llm.py` (lines 55-56). -/
def dummyToolSpec : ToolSpec :=
  { name := "dummy_tool",
    description := "A dummy tool that does nothing - used only for agent framework demo" }

/-- The Python exceptions raised by the embedded tool methods. -/
inductive PyExc where
  | notImplementedError
  deriving DecidableEq

namespace DummyTool

/-- `DummyTool._run` (lines 59-69 of `00_simple_llm.py`): ignores its `query`
argument and returns a fixed message; being a total Lean function, it models
that the Python method body consists of a single `return` and cannot raise. -/
def run (query : String) : String :=
  "This is a dummy tool that does nothing. I can only provide information through conversation."

/-- `DummyTool._arun` (lines 71-73 of `00_simple_llm.py`): accepts any
`*args, **kwargs` and unconditionally raises `NotImplementedError`. -/
def arun (args : List String) (kwargs : List (String × String)) : Except PyExc String :=
  Except.error PyExc.notImplementedError

end DummyTool

/-- The tool list passed to `initialize_agent` in `main` of
`00_simple_llm.py` (line 124): `tools=[dummy_tool]`, a single placeholder
tool instance. -/
def agentTools00 : List ToolSpec := [dummyToolSpec]

/-- Python truthiness of `api_key` in `if not api_key:` of
`01_simple_agent.py` (line 39), where
`api_key = os.environ.get("GOOGLE_API_KEY")`: falsy exactly when the
variable is absent (`None`) or set to the empty string. -/
def optStrFalsy : Option String → Bool
  | none => true
  | some s => s = ""

/-- The message of the `RuntimeError` raised at line 40 of
`01_simple_agent.py`. -/
def keyMissingMsg : String :=
  "GOOGLE_API_KEY is not set. Add it to scripts/.env or export it in your shell."

/-- The module-level credential check of `01_simple_agent.py` (lines 38-40):
raise `RuntimeError` when `GOOGLE_API_KEY` is falsy, otherwise proceed with
the key. -/
def script01Startup (google_api_key : Option String) : Except String String :=
  if optStrFalsy google_api_key then Except.error keyMissingMsg
  else Except.ok (google_api_key.getD "")

/-- Observable outcome of a whole process run: interpreter exit status,
lines written (stdout or stderr), and whether the interactive prompt was
ever shown. -/
structure ProcessOutcome where
  exitCode : Nat
  output : List String
  promptShown : Bool
  deriving DecidableEq

/-- Process-level model of `01_simple_agent.py`: the module-level
`RuntimeError` is raised before `main()` is ever called and nothing in the
script catches it, so a falsy `GOOGLE_API_KEY` makes the interpreter print
the traceback message and exit with status 1 before any prompt is shown;
otherwise the run continues into the rest of the script, whose outcome is
the parameter `rest`. -/
def script01Process (google_api_key : Option String) (rest : ProcessOutcome) :
    ProcessOutcome :=
  match script01Startup google_api_key with
  | Except.error m =>
      { exitCode := 1, output := ["RuntimeError: " ++ m], promptShown := false }
  | Except.ok _ => rest

/-- The troubleshooting lines printed by the top-level handler of
`00_simple_llm.py` (lines 180-185). -/
def troubleshootingTips : List String :=
  ["\n🔧 Troubleshooting tips:",
   "1. Make sure your .env file contains GOOGLE_API_KEY",
   "2. Verify your virtual environment is activated",
   "3. Check that you have installed requirements: pip install -r requirements.txt",
   "4. Ensure you have internet connection for API calls"]

/-- The `if __name__ == "__main__":` wrapper of `00_simple_llm.py`
(lines 176-185): `main()` either finishes normally with some output, or
raises an exception (e.g. a configuration failure while constructing the
LLM with a missing `GOOGLE_API_KEY`); `except Exception as e:` catches the
exception, prints `❌ Error occurred:` plus the troubleshooting tips, and the
script then falls off the end, so the interpreter exits with status 0 in
both cases. Returns (exit status, printed lines). -/
def script00TopLevel (mainResult : Except String (List String)) :
    Nat × List String :=
  match mainResult with
  | Except.ok out => (0, out)
  | Except.error e => (0, ("❌ Error occurred: " ++ e) :: troubleshootingTips)

/-! Helper lemmas about `stripList`: stripping is idempotent. -/

/-- The head of a non-empty `dropWhile` result does not satisfy the
predicate. -/
theorem dropWhile_cons_head_false (p : Char → Bool) (l : List Char)
    (c : Char) (t : List Char) (hm : List.dropWhile p l = c :: t) :
    p c = false := by
  induction l with
  | nil => simp [List.dropWhile] at hm
  | cons a l ih =>
      rw [List.dropWhile_cons] at hm
      cases ha : p a with
      | true => rw [ha] at hm; simp at hm; exact ih hm
      | false =>
          rw [ha] at hm
          simp at hm
          rw [← hm.1]
          exact ha

/-- `rdropWhile` commutes past a head element that fails the predicate. -/
theorem rdropWhile_cons_of_neg (p : Char → Bool) (c : Char) (t : List Char)
    (h : p c = false) :
    List.rdropWhile p (c :: t) = c :: List.rdropWhile p t := by
  induction t using List.reverseRecOn with
  | nil =>
      rw [List.rdropWhile_singleton]
      simp [h]
  | append_singleton ys y ih =>
      by_cases hy : p y = true
      · have h1 : c :: (ys ++ [y]) = (c :: ys) ++ [y] := rfl
        rw [h1, List.rdropWhile_concat_pos p (c :: ys) y hy, ih,
            List.rdropWhile_concat_pos p ys y hy]
      · have hy2 : ¬ p y := by simpa using hy
        have h1 : c :: (ys ++ [y]) = (c :: ys) ++ [y] := rfl
        rw [h1, List.rdropWhile_concat_neg p (c :: ys) y hy2,
            List.rdropWhile_concat_neg p ys y hy2, List.cons_append]

/-- Stripping a character list twice is the same as stripping it once. -/
theorem stripList_idem (l : List Char) : stripList (stripList l) = stripList l := by
  unfold stripList
  cases hm : List.dropWhile pyIsSpace l with
  | nil => simp
  | cons c t =>
      have hc := dropWhile_cons_head_false pyIsSpace l c t hm
      rw [rdropWhile_cons_of_neg pyIsSpace c t hc]
      have h2 : List.dropWhile pyIsSpace (c :: List.rdropWhile pyIsSpace t)
          = c :: List.rdropWhile pyIsSpace t := by
        simp [List.dropWhile_cons, hc]
      rw [h2, rdropWhile_cons_of_neg pyIsSpace c _ hc, List.rdropWhile_idempotent]

/-- Python's `str.strip()` is idempotent. -/
theorem pyStrip_idem (s : String) : pyStrip (pyStrip s) = pyStrip s := by
  unfold pyStrip
  exact congrArg String.mk (stripList_idem s.data)

/-! Characterizations of the per-iteration decision. -/

/-- An input whose stripped, lowercased form is an exit keyword decides
`terminate`. -/
theorem loopDecision_terminate (s : String)
    (h : exitCommands.contains (pyLower (pyStrip s)) = true) :
    loopDecision s = Decision.terminate := by
  simp only [loopDecision, h, if_true]

/-- An input that strips to the empty string decides `reprompt`. -/
theorem loopDecision_reprompt (s : String) (h : pyStrip s = "") :
    loopDecision s = Decision.reprompt := by
  simp only [loopDecision, h]
  decide

/-- An input that strips to a non-empty non-keyword string decides
`dispatch` of the stripped input. -/
theorem loopDecision_dispatch (s : String)
    (h1 : exitCommands.contains (pyLower (pyStrip s)) = false)
    (h2 : pyStrip s ≠ "") :
    loopDecision s = Decision.dispatch (pyStrip s) := by
  simp only [loopDecision, h1, h2]
  simp

/-- C1: for every operator input whose trimmed, lowercased form is one of
`quit`, `exit`, `q`, the delegation loop of both scripts breaks out of the
loop (Terminated), printing the farewell, without calling `agent.invoke`
(the call list of the iteration is empty). -/
theorem c1_exit_keyword_terminates_without_invoke
    (s : String) (backend00 backend01 : String → BackendBehavior)
    (h : exitCommands.contains (pyLower (pyStrip s)) = true) :
    loopStep00 backend00 (InputEvent.line s)
      = ⟨LoopState.terminated, [], ["👋 Goodbye!"]⟩ ∧
    loopStep01 backend01 (InputEvent.line s)
      = ⟨LoopState.terminated, [], ["👋 Goodbye!"]⟩ := by
  have hd := loopDecision_terminate s h
  constructor
  · show stepOfDecision00 backend00 (loopDecision s) = _
    rw [hd]
    rfl
  · show stepOfDecision01 backend01 (loopDecision s) = _
    rw [hd]
    rfl

/-- Witness for C1 at the concrete input `"  QUIT  "`. -/
theorem c1_exit_keyword_terminates_without_invoke_witness :
    loopStep00 (fun _ => BackendBehavior.success "ok") (InputEvent.line "  QUIT  ")
      = ⟨LoopState.terminated, [], ["👋 Goodbye!"]⟩ ∧
    loopStep01 (fun _ => BackendBehavior.success "ok") (InputEvent.line "  QUIT  ")
      = ⟨LoopState.terminated, [], ["👋 Goodbye!"]⟩ :=
  c1_exit_keyword_terminates_without_invoke "  QUIT  "
    (fun _ => BackendBehavior.success "ok")
    (fun _ => BackendBehavior.success "ok") (by decide)

/-- C2: for every non-empty, non-exit-keyword input accepted in one loop
iteration, both loops call `agent.invoke` exactly once, with exactly that
stripped input, and return to the top of the loop (Idle) afterwards whether
the call returns a result or raises a caught exception. -/
theorem c2_dispatch_invokes_once_returns_idle
    (s : String) (backend00 backend01 : String → BackendBehavior)
    (h1 : exitCommands.contains (pyLower (pyStrip s)) = false)
    (h2 : pyStrip s ≠ "")
    (h00 : backend00 (pyStrip s) ≠ BackendBehavior.interruptDuringInvoke)
    (h01 : backend01 (pyStrip s) ≠ BackendBehavior.interruptDuringInvoke) :
    (loopStep00 backend00 (InputEvent.line s)).calls = [pyStrip s] ∧
    (loopStep00 backend00 (InputEvent.line s)).next = LoopState.idle ∧
    (loopStep01 backend01 (InputEvent.line s)).calls = [pyStrip s] ∧
    (loopStep01 backend01 (InputEvent.line s)).next = LoopState.idle := by
  have hd := loopDecision_dispatch s h1 h2
  have e00 : loopStep00 backend00 (InputEvent.line s)
      = invokeOutcome00 (pyStrip s) (backend00 (pyStrip s)) := by
    show stepOfDecision00 backend00 (loopDecision s) = _
    rw [hd]
    rfl
  have e01 : loopStep01 backend01 (InputEvent.line s)
      = invokeOutcome01 (pyStrip s) (backend01 (pyStrip s)) := by
    show stepOfDecision01 backend01 (loopDecision s) = _
    rw [hd]
    rfl
  rw [e00, e01]
  cases hb00 : backend00 (pyStrip s) <;> cases hb01 : backend01 (pyStrip s) <;>
    simp_all [invokeOutcome00, invokeOutcome01]

/-- Witness for C2 at the concrete input `"hello"` with a backend returning
a canned success. -/
theorem c2_dispatch_invokes_once_returns_idle_witness :
    (loopStep00 (fun _ => BackendBehavior.success "Hi there!")
        (InputEvent.line "hello")).calls = [pyStrip "hello"] ∧
    (loopStep00 (fun _ => BackendBehavior.success "Hi there!")
        (InputEvent.line "hello")).next = LoopState.idle ∧
    (loopStep01 (fun _ => BackendBehavior.success "Hi there!")
        (InputEvent.line "hello")).calls = [pyStrip "hello"] ∧
    (loopStep01 (fun _ => BackendBehavior.success "Hi there!")
        (InputEvent.line "hello")).next = LoopState.idle :=
  c2_dispatch_invokes_once_returns_idle "hello"
    (fun _ => BackendBehavior.success "Hi there!")
    (fun _ => BackendBehavior.success "Hi there!")
    (by decide) (by decide) (by decide) (by decide)

/-- C3: for every input that strips to the empty string, both loops
re-prompt (Idle, nothing printed) and never call `agent.invoke`. -/
theorem c3_blank_input_never_invokes
    (s : String) (backend00 backend01 : String → BackendBehavior)
    (h : pyStrip s = "") :
    loopStep00 backend00 (InputEvent.line s) = ⟨LoopState.idle, [], []⟩ ∧
    loopStep01 backend01 (InputEvent.line s) = ⟨LoopState.idle, [], []⟩ := by
  have hd := loopDecision_reprompt s h
  constructor
  · show stepOfDecision00 backend00 (loopDecision s) = _
    rw [hd]
    rfl
  · show stepOfDecision01 backend01 (loopDecision s) = _
    rw [hd]
    rfl

/-- Witness for C3 at the whitespace-only concrete input `"   "`. -/
theorem c3_blank_input_never_invokes_witness :
    loopStep00 (fun _ => BackendBehavior.success "ok") (InputEvent.line "   ")
      = ⟨LoopState.idle, [], []⟩ ∧
    loopStep01 (fun _ => BackendBehavior.success "ok") (InputEvent.line "   ")
      = ⟨LoopState.idle, [], []⟩ :=
  c3_blank_input_never_invokes "   "
    (fun _ => BackendBehavior.success "ok")
    (fun _ => BackendBehavior.success "ok") (by decide)

/-- C4: an exception raised by `agent.invoke` is caught at the loop
boundary, converted to a printed `❌ Error:` message, and the session is
preserved: the loop returns to Idle and a subsequent valid input is still
dispatched and answered. Shown for both scripts on a two-input session
whose first dispatch raises and whose second succeeds. -/
theorem c4_error_caught_session_continues
    (s1 s2 : String) (backend : String → BackendBehavior) (em out : String)
    (h1a : exitCommands.contains (pyLower (pyStrip s1)) = false)
    (h1b : pyStrip s1 ≠ "")
    (h1c : backend (pyStrip s1) = BackendBehavior.raiseExc em)
    (h2a : exitCommands.contains (pyLower (pyStrip s2)) = false)
    (h2b : pyStrip s2 ≠ "")
    (h2c : backend (pyStrip s2) = BackendBehavior.success out) :
    runLoop (loopStep00 backend) [InputEvent.line s1, InputEvent.line s2]
      = (LoopState.idle, [pyStrip s1, pyStrip s2],
         ["\n🔄 Processing your request...", "\n❌ Error: " ++ em ++ "\n",
          "\n🔄 Processing your request...", "\n🤖 Agent Response: " ++ out]) ∧
    runLoop (loopStep01 backend) [InputEvent.line s1, InputEvent.line s2]
      = (LoopState.idle, [pyStrip s1, pyStrip s2],
         ["\n🔄 Processing your request...", "\n❌ Error: " ++ em ++ "\n",
          "\n🔄 Processing your request...", "\n📊 Result: " ++ out ++ "\n"]) := by
  have hd1 := loopDecision_dispatch s1 h1a h1b
  have hd2 := loopDecision_dispatch s2 h2a h2b
  have e001 : loopStep00 backend (InputEvent.line s1)
      = ⟨LoopState.idle, [pyStrip s1],
         ["\n🔄 Processing your request...", "\n❌ Error: " ++ em ++ "\n"]⟩ := by
    show stepOfDecision00 backend (loopDecision s1) = _
    rw [hd1]
    show invokeOutcome00 (pyStrip s1) (backend (pyStrip s1)) = _
    rw [h1c]
    rfl
  have e002 : loopStep00 backend (InputEvent.line s2)
      = ⟨LoopState.idle, [pyStrip s2],
         ["\n🔄 Processing your request...", "\n🤖 Agent Response: " ++ out]⟩ := by
    show stepOfDecision00 backend (loopDecision s2) = _
    rw [hd2]
    show invokeOutcome00 (pyStrip s2) (backend (pyStrip s2)) = _
    rw [h2c]
    rfl
  have e011 : loopStep01 backend (InputEvent.line s1)
      = ⟨LoopState.idle, [pyStrip s1],
         ["\n🔄 Processing your request...", "\n❌ Error: " ++ em ++ "\n"]⟩ := by
    show stepOfDecision01 backend (loopDecision s1) = _
    rw [hd1]
    show invokeOutcome01 (pyStrip s1) (backend (pyStrip s1)) = _
    rw [h1c]
    rfl
  have e012 : loopStep01 backend (InputEvent.line s2)
      = ⟨LoopState.idle, [pyStrip s2],
         ["\n🔄 Processing your request...", "\n📊 Result: " ++ out ++ "\n"]⟩ := by
    show stepOfDecision01 backend (loopDecision s2) = _
    rw [hd2]
    show invokeOutcome01 (pyStrip s2) (backend (pyStrip s2)) = _
    rw [h2c]
    rfl
  constructor
  · simp [runLoop, e001, e002]
  · simp [runLoop, e011, e012]

/-- Witness for C4: a two-input session where the backend raises a
transport failure on the first request and succeeds on the second. -/
theorem c4_error_caught_session_continues_witness :
    runLoop (loopStep00 (fun u =>
        if u = "first question" then BackendBehavior.raiseExc "TransportError"
        else BackendBehavior.success "Hi there!"))
      [InputEvent.line "first question", InputEvent.line "second question"]
      = (LoopState.idle, [pyStrip "first question", pyStrip "second question"],
         ["\n🔄 Processing your request...", "\n❌ Error: " ++ "TransportError" ++ "\n",
          "\n🔄 Processing your request...", "\n🤖 Agent Response: " ++ "Hi there!"]) ∧
    runLoop (loopStep01 (fun u =>
        if u = "first question" then BackendBehavior.raiseExc "TransportError"
        else BackendBehavior.success "Hi there!"))
      [InputEvent.line "first question", InputEvent.line "second question"]
      = (LoopState.idle, [pyStrip "first question", pyStrip "second question"],
         ["\n🔄 Processing your request...", "\n❌ Error: " ++ "TransportError" ++ "\n",
          "\n🔄 Processing your request...", "\n📊 Result: " ++ "Hi there!" ++ "\n"]) :=
  c4_error_caught_session_continues "first question" "second question"
    (fun u =>
      if u = "first question" then BackendBehavior.raiseExc "TransportError"
      else BackendBehavior.success "Hi there!")
    "TransportError" "Hi there!"
    (by decide) (by decide) (by decide) (by decide) (by decide) (by decide)


/-- C5 counterexample: the claim says a missing `GOOGLE_API_KEY` makes "the
program" exit with a non-zero status, and its sources include the
`__main__` wrapper of `00_simple_llm.py`; but that wrapper catches the
startup exception, prints the message and tips, and falls off the end of
the script, so the interpreter exits with status 0. -/
theorem c5_counterexample :
    (script00TopLevel (Except.error "Invalid API key")).fst = 0 := by decide

/-- C5 (amended): in `01_simple_agent.py` a missing (or empty)
`GOOGLE_API_KEY` raises an uncaught `RuntimeError` with a descriptive
message, so the process exits with status 1 before any prompt is shown;
in `00_simple_llm.py` the startup exception is caught by the top-level
wrapper, which prints a descriptive error message and troubleshooting tips,
and the process exits with status 0. -/
theorem c5_amended_startup_error_reporting
    (k : Option String) (rest : ProcessOutcome) (e : String)
    (h : optStrFalsy k = true) :
    (script01Process k rest).exitCode = 1 ∧
    (script01Process k rest).promptShown = false ∧
    (script01Process k rest).output = ["RuntimeError: " ++ keyMissingMsg] ∧
    (script00TopLevel (Except.error e)).fst = 0 ∧
    (script00TopLevel (Except.error e)).snd
      = ("❌ Error occurred: " ++ e) :: troubleshootingTips := by
  have hs : script01Startup k = Except.error keyMissingMsg := by
    simp [script01Startup, h]
  refine ⟨?_, ?_, ?_, rfl, rfl⟩ <;> simp [script01Process, hs]

/-- Witness for the amended C5 with the variable absent. -/
theorem c5_amended_startup_error_reporting_witness :
    (script01Process none ⟨0, [], true⟩).exitCode = 1 ∧
    (script01Process none ⟨0, [], true⟩).promptShown = false ∧
    (script01Process none ⟨0, [], true⟩).output
      = ["RuntimeError: " ++ keyMissingMsg] ∧
    (script00TopLevel (Except.error "Missing credential")).fst = 0 ∧
    (script00TopLevel (Except.error "Missing credential")).snd
      = ("❌ Error occurred: " ++ "Missing credential") :: troubleshootingTips :=
  c5_amended_startup_error_reporting none ⟨0, [], true⟩ "Missing credential"
    (by decide)

/-- C6 counterexample: the claim says end-of-input takes Idle to Terminated,
but `EOFError` raised by `input()` is a subclass of `Exception`, not of
`KeyboardInterrupt`, so it is caught by the generic handler and both loops
print an error message and return to the top of the loop (Idle). -/
theorem c6_counterexample :
    (loopStep00 (fun _ => BackendBehavior.success "ok")
        InputEvent.eofAtInput).next ≠ LoopState.terminated ∧
    (loopStep01 (fun _ => BackendBehavior.success "ok")
        InputEvent.eofAtInput).next ≠ LoopState.terminated := by decide

/-- C6 (amended): a `KeyboardInterrupt`, whether it arrives while waiting
for input (Idle) or during a blocking `agent.invoke` call (Dispatching), is
caught: a farewell is printed and both loops transition to Terminated.
End-of-input, however, surfaces as an `EOFError` caught by the generic
exception handler: both loops print an error message and return to Idle
rather than terminating. -/
theorem c6_amended_interrupt_terminates_eof_stays_idle
    (backend00 backend01 : String → BackendBehavior) (s : String)
    (h1 : exitCommands.contains (pyLower (pyStrip s)) = false)
    (h2 : pyStrip s ≠ "")
    (h00 : backend00 (pyStrip s) = BackendBehavior.interruptDuringInvoke)
    (h01 : backend01 (pyStrip s) = BackendBehavior.interruptDuringInvoke) :
    loopStep00 backend00 InputEvent.interruptAtInput
      = ⟨LoopState.terminated, [], ["\n👋 Goodbye!"]⟩ ∧
    loopStep01 backend01 InputEvent.interruptAtInput
      = ⟨LoopState.terminated, [], ["\n👋 Goodbye!"]⟩ ∧
    (loopStep00 backend00 (InputEvent.line s)).next = LoopState.terminated ∧
    (loopStep01 backend01 (InputEvent.line s)).next = LoopState.terminated ∧
    (loopStep00 backend00 InputEvent.eofAtInput).next = LoopState.idle ∧
    (loopStep01 backend01 InputEvent.eofAtInput).next = LoopState.idle := by
  have hd := loopDecision_dispatch s h1 h2
  have e00 : loopStep00 backend00 (InputEvent.line s)
      = invokeOutcome00 (pyStrip s) (backend00 (pyStrip s)) := by
    show stepOfDecision00 backend00 (loopDecision s) = _
    rw [hd]
    rfl
  have e01 : loopStep01 backend01 (InputEvent.line s)
      = invokeOutcome01 (pyStrip s) (backend01 (pyStrip s)) := by
    show stepOfDecision01 backend01 (loopDecision s) = _
    rw [hd]
    rfl
  refine ⟨rfl, rfl, ?_, ?_, rfl, rfl⟩
  · rw [e00, h00]
    rfl
  · rw [e01, h01]
    rfl

/-- Witness for the amended C6 at the concrete input `"hello"` with a
backend interrupted during the call. -/
theorem c6_amended_interrupt_terminates_eof_stays_idle_witness :
    loopStep00 (fun _ => BackendBehavior.interruptDuringInvoke)
        InputEvent.interruptAtInput
      = ⟨LoopState.terminated, [], ["\n👋 Goodbye!"]⟩ ∧
    loopStep01 (fun _ => BackendBehavior.interruptDuringInvoke)
        InputEvent.interruptAtInput
      = ⟨LoopState.terminated, [], ["\n👋 Goodbye!"]⟩ ∧
    (loopStep00 (fun _ => BackendBehavior.interruptDuringInvoke)
        (InputEvent.line "hello")).next = LoopState.terminated ∧
    (loopStep01 (fun _ => BackendBehavior.interruptDuringInvoke)
        (InputEvent.line "hello")).next = LoopState.terminated ∧
    (loopStep00 (fun _ => BackendBehavior.interruptDuringInvoke)
        InputEvent.eofAtInput).next = LoopState.idle ∧
    (loopStep01 (fun _ => BackendBehavior.interruptDuringInvoke)
        InputEvent.eofAtInput).next = LoopState.idle :=
  c6_amended_interrupt_terminates_eof_stays_idle
    (fun _ => BackendBehavior.interruptDuringInvoke)
    (fun _ => BackendBehavior.interruptDuringInvoke)
    "hello" (by decide) (by decide) (by decide) (by decide)

/-- C7: the conversational-only script builds its agent with the tool list
`[dummy_tool]` — exactly one placeholder tool named `dummy_tool`, so the
adapter set has size one, not zero. -/
theorem c7_tools_list_is_singleton_dummy :
    agentTools00 = [dummyToolSpec] ∧ agentTools00.length = 1 ∧
    dummyToolSpec.name = "dummy_tool" ∧ agentTools00.length ≠ 0 := by
  refine ⟨rfl, rfl, rfl, ?_⟩
  decide

/-- C8: the per-iteration decision of the loop is invariant under
surrounding whitespace: the decision on an input equals the decision on its
stripped form, because `str.strip` is applied before the exit-keyword check
and the emptiness check and stripping is idempotent. -/
theorem c8_decision_invariant_under_strip (s : String) :
    loopDecision (pyStrip s) = loopDecision s := by
  simp only [loopDecision, pyStrip_idem]

/-- C9: `DummyTool._run` returns the same fixed string for every query —
its output is a constant, independent of the argument (and, being a single
`return` statement, it cannot raise). -/
theorem c9_dummy_run_is_constant (query : String) :
    DummyTool.run query =
      "This is a dummy tool that does nothing. I can only provide information through conversation." :=
  rfl

/-- C10: `DummyTool._arun` raises `NotImplementedError` for every
combination of positional and keyword arguments. -/
theorem c10_dummy_arun_raises_not_implemented
    (args : List String) (kwargs : List (String × String)) :
    DummyTool.arun args kwargs = Except.error PyExc.notImplementedError :=
  rfl
